import Mathlib

/-!
Shallow embedding of `occi_os_api/nova_glue/vm.py` (the OCCI → Nova VM glue
adapter) and verification of its state-derivation, VM-creation, restart,
resize-polling, password and console paths.

Provider (Nova) and OCCI-library values that the module only references —
state-name constants, action categories, the compute/volume API calls — are
modelled as explicit parameters or string constants; everything else is a
direct translation of the Python source.
-/

namespace vm_states

/-- Modelled from the spec: nova's `vm_states` string constants (§4.1 table,
glossary); the module compares `instance['vm_state']` against these. -/
def ACTIVE : String := "active"

def BUILDING : String := "building"

def PAUSED : String := "paused"

def SUSPENDED : String := "suspended"

def STOPPED : String := "stopped"

def RESCUED : String := "rescued"

def ERROR : String := "error"

def DELETED : String := "deleted"

end vm_states

namespace task_states

/-- Modelled from the spec: nova's task-state constant for "image
snapshotting" (§4.1 override); distinct from every `vm_states` value. -/
def IMAGE_SNAPSHOT : String := "image_snapshot"

end task_states

namespace infrastructure

/-- Modelled from the spec: the OCCI action categories appended to the
permitted-action list by `get_occi_state`. -/
def START : String := "start"

def STOP : String := "stop"

def SUSPEND : String := "suspend"

def RESTART : String := "restart"

end infrastructure

/-- The provider's instance record, as far as this module reads it: the
`vm_state` / `task_state` pair (spec §3 "Provider Instance"). -/
structure Instance where
  vm_state : String
  task_state : Option String
deriving Repr, DecidableEq

/-- Function `get_occi_state` (vm.py lines 405-443), the pure state/action
derivation applied to the fetched instance record.  Faithful detail: the
final "task states" override compares `instance['vm_state']` — not the
task state — against `task_states.IMAGE_SNAPSHOT`. -/
def get_occi_state (inst : Instance) : String × List String :=
  let state := "inactive"
  let actions : List String := []
  let (state, actions) :=
    if inst.vm_state ∈ [vm_states.ACTIVE] then
      ("active", actions ++ [infrastructure.STOP, infrastructure.SUSPEND,
        infrastructure.RESTART])
    else if inst.vm_state ∈ [vm_states.BUILDING] then
      ("inactive", actions)
    else if inst.vm_state ∈ [vm_states.PAUSED, vm_states.SUSPENDED,
        vm_states.STOPPED] then
      ("inactive", actions ++ [infrastructure.START])
    else if inst.vm_state ∈ [vm_states.RESCUED, vm_states.ERROR,
        vm_states.DELETED] then
      ("inactive", actions)
    else (state, actions)
  if inst.vm_state ∈ [task_states.IMAGE_SNAPSHOT] then
    ("inactive", [])
  else (state, actions)

/-- C1: the claim says an instance whose task-state is "image snapshotting"
always derives `("inactive", {})`.  The code instead compares the
`vm_state` field against the `IMAGE_SNAPSHOT` task-state constant, so for
an active instance that is snapshotting the override never fires: the
derived state is `("active", {stop, suspend, restart})`. -/
theorem get_occi_state_snapshot_override_ineffective :
    get_occi_state ⟨vm_states.ACTIVE, some task_states.IMAGE_SNAPSHOT⟩
      = ("active", [infrastructure.STOP, infrastructure.SUSPEND,
          infrastructure.RESTART]) := by
  decide

/-- C2: `get_occi_state` realises the spec's state table: vm_state
`active` yields `("active", [stop, suspend, restart])`; `paused`,
`suspended` and `stopped` yield `("inactive", [start])`; `building`,
`rescued`, `error` and `deleted` yield `("inactive", [])`. -/
theorem get_occi_state_table (inst : Instance) :
    (inst.vm_state = vm_states.ACTIVE →
      get_occi_state inst = ("active", [infrastructure.STOP,
        infrastructure.SUSPEND, infrastructure.RESTART])) ∧
    (inst.vm_state ∈ [vm_states.PAUSED, vm_states.SUSPENDED,
        vm_states.STOPPED] →
      get_occi_state inst = ("inactive", [infrastructure.START])) ∧
    (inst.vm_state ∈ [vm_states.BUILDING, vm_states.RESCUED,
        vm_states.ERROR, vm_states.DELETED] →
      get_occi_state inst = ("inactive", [])) := by
  obtain ⟨v, t⟩ := inst
  refine ⟨fun h => ?_, fun h => ?_, fun h => ?_⟩
  · simp only at h
    subst h
    rfl
  · simp only [List.mem_cons, List.not_mem_nil, or_false] at h
    rcases h with h | h | h <;> (subst h; rfl)
  · simp only [List.mem_cons, List.not_mem_nil, or_false] at h
    rcases h with h | h | h | h <;> (subst h; rfl)

/-- C2 witness: the table theorem applied to a concrete paused instance. -/
theorem get_occi_state_table_witness :
    get_occi_state ⟨"paused", none⟩ = ("inactive", [infrastructure.START]) :=
  (get_occi_state_table ⟨"paused", none⟩).2.1 (by decide)

/-- C10: for every provider `vm_state` (listed in the table or not) the
derived state is `"active"` or `"inactive"` — never `"suspended"` — and a
`vm_state` matching no branch yields the default `("inactive", [])`. -/
theorem get_occi_state_range (inst : Instance) :
    ((get_occi_state inst).1 = "active" ∨ (get_occi_state inst).1 = "inactive") ∧
    (get_occi_state inst).1 ≠ "suspended" ∧
    (inst.vm_state ∉ [vm_states.ACTIVE, vm_states.BUILDING, vm_states.PAUSED,
        vm_states.SUSPENDED, vm_states.STOPPED, vm_states.RESCUED,
        vm_states.ERROR, vm_states.DELETED] →
      get_occi_state inst = ("inactive", [])) := by
  obtain ⟨v, t⟩ := inst
  unfold get_occi_state
  refine ⟨?_, ?_, fun h => ?_⟩
  · split_ifs <;> simp_all
  · split_ifs <;> simp_all
  · simp only [List.mem_cons, List.not_mem_nil, or_false, not_or] at h
    obtain ⟨h1, h2, h3, h4, h5, h6, h7, h8⟩ := h
    split_ifs <;> simp_all [vm_states.ACTIVE, vm_states.BUILDING,
      vm_states.PAUSED, vm_states.SUSPENDED, vm_states.STOPPED,
      vm_states.RESCUED, vm_states.ERROR, vm_states.DELETED]

/-- C10 witness: the range theorem applied to a `vm_state` outside the
table ("migrating"), which takes the default branch. -/
theorem get_occi_state_range_witness :
    ((get_occi_state ⟨"migrating", none⟩).1 = "active" ∨
      (get_occi_state ⟨"migrating", none⟩).1 = "inactive") ∧
    get_occi_state ⟨"migrating", none⟩ = ("inactive", []) :=
  ⟨(get_occi_state_range ⟨"migrating", none⟩).1,
   (get_occi_state_range ⟨"migrating", none⟩).2.2 (by decide)⟩

/-- Provider-side (nova) exception kinds, as far as this module names
them.  In nova, `InstanceNotFound` is a subclass of `NotFound`, so a
handler for `exception.NotFound` also catches `instanceNotFound`. -/
inductive ProviderErr where
  | instanceNotFound (msg : String)
  | otherNotFound (msg : String)
  | instanceInvalidState (msg : String)
  | instancePasswordSetFailed (msg : String)
  | other (msg : String)
deriving Repr, DecidableEq

/-- Error kinds this adapter raises: `validation` is Python
`AttributeError` (the protocol layer's ValidationError), `httpError` is
`occi.exceptions.HTTPError`, `keyError` a Python dict `KeyError`,
`indexError` a Python `IndexError`; `provider e` is a provider exception
that escapes un-remapped. -/
inductive Err where
  | validation (msg : String)
  | keyError (attr : String)
  | httpError (code : Nat) (msg : String)
  | flavorNotFound
  | indexError
  | provider (e : ProviderErr)
deriving Repr, DecidableEq

/-- The mixin kinds `create_vm` dispatches on (spec §3): a
`ResourceTemplate`, an `OsTemplate`, the key-pair extension mixin
(`os_addon.OS_KEY_PAIR_EXT`), or any other mixin. -/
inductive MixinKind where
  | resourceTemplate
  | osTemplate
  | keyPairExt
  | plain
deriving Repr, DecidableEq

/-- A protocol mixin as `create_vm` reads it: its kind, its `term`, its
`os_id` (meaningful for OsTemplate), and whether `os_addon.SEC_GROUP` is
among its `related` categories (an independent test in the source loop,
so it can hold for any kind). -/
structure Mixin where
  kind : MixinKind
  term : String
  os_id : String
  related_sec_group : Bool
deriving Repr, DecidableEq

/-- A Resource Description (spec §3): string attributes plus an ordered
mixin collection. -/
structure Entity where
  attributes : List (String × String)
  mixins : List Mixin
deriving Repr, DecidableEq

/-- Python dict lookup `attrs[k]` on the attribute mapping. -/
def lookupAttr (attrs : List (String × String)) (k : String) : Option String :=
  match attrs.find? (fun p => p.1 = k) with
  | some p => some p.2
  | none => none

/-- The mutable locals of `create_vm`'s mixin loop (vm.py lines 79-94). -/
structure ScanState where
  resource_template : Option Mixin := none
  os_template : Option Mixin := none
  key_name : Option String := none
  key_data : Option String := none
  sg_names : List String := []
deriving Repr, DecidableEq

/-- The `for mixin in entity.mixins` loop of `create_vm` (vm.py lines
81-94): last ResourceTemplate / OsTemplate assignment wins, the key-pair
mixin reads two attributes (a missing one is a dict `KeyError`, name
before data), and — in a separate `if`, not the `elif` chain — every
mixin related to `SEC_GROUP` appends its term to `sg_names`. -/
def scan_mixins (attrs : List (String × String)) :
    List Mixin → ScanState → Except Err ScanState
  | [], s => .ok s
  | m :: rest, s =>
    let step : Except Err ScanState :=
      match m.kind with
      | .resourceTemplate => .ok { s with resource_template := some m }
      | .osTemplate => .ok { s with os_template := some m }
      | .keyPairExt =>
        match lookupAttr attrs "org.openstack.credentials.publickey.name" with
        | none => .error (.keyError "org.openstack.credentials.publickey.name")
        | some n =>
          match lookupAttr attrs "org.openstack.credentials.publickey.data" with
          | none => .error (.keyError "org.openstack.credentials.publickey.data")
          | some d => .ok { s with key_name := some n, key_data := some d }
      | .plain => .ok s
    match step with
    | .error e => .error e
    | .ok s1 =>
      let s2 := if m.related_sec_group then
          { s1 with sg_names := s1.sg_names ++ [m.term] }
        else s1
      scan_mixins attrs rest s2

/-- The arguments this adapter passes to `COMPUTE_API.create` (vm.py
lines 109-133), restricted to the ones it does not hard-wire to
empty/default values.  `instance_type` carries the selected flavor's
name. -/
structure CreateArgs where
  instance_type : String
  image_href : String
  min_count : Nat
  max_count : Nat
  display_name : Option String
  display_description : Option String
  key_name : Option String
  key_data : Option String
  security_group : List String
  admin_password : String
deriving Repr, DecidableEq

/-- Argument resolution of `create_vm` (vm.py lines 58-106): hostname
attribute → display name; mixin scan; mandatory OsTemplate check (after
the scan, before any compute call); flavor from the last ResourceTemplate
term via `get_instance_type_by_name` (`flavors`), else the provider's
default flavor. -/
def create_vm_args (entity : Entity) (flavors : String → Option String)
    (default_flavor : String) (password : String) : Except Err CreateArgs :=
  let name := lookupAttr entity.attributes "occi.compute.hostname"
  match scan_mixins entity.attributes entity.mixins {} with
  | .error e => .error e
  | .ok s =>
    match s.os_template with
    | none => .error (.validation "Please provide a valid OS Template.")
    | some ot =>
      let inst_type : Option String :=
        match s.resource_template with
        | some rt => flavors rt.term
        | none => some default_flavor
      match inst_type with
      | none => .error .flavorNotFound
      | some ft =>
        .ok { instance_type := ft
              image_href := ot.os_id
              min_count := 1
              max_count := 1
              display_name := name
              display_description := name
              key_name := s.key_name
              key_data := s.key_data
              security_group := s.sg_names
              admin_password := password }

/-- Whole of `create_vm` (vm.py lines 51-138): resolve arguments, invoke
`COMPUTE_API.create` (`provider`; a failure message is re-raised as
`AttributeError(str(error))`), return `instances[0]`.  The second
component lists the provider create calls actually issued. -/
def create_vm (entity : Entity) (flavors : String → Option String)
    (default_flavor : String) (password : String)
    (provider : CreateArgs → Except String (List String)) :
    Except Err String × List CreateArgs :=
  match create_vm_args entity flavors default_flavor password with
  | .error e => (.error e, [])
  | .ok args =>
    match provider args with
    | .error msg => (.error (.validation msg), [args])
    | .ok [] => (.error .indexError, [args])
    | .ok (x :: _) => (.ok x, [args])

/-- Last-assignment-wins accumulator: the value held by the loop variable
for mixins of kind `k` after scanning `ms`, starting from `acc`. -/
def lastOfKind (k : MixinKind) (ms : List Mixin) (acc : Option Mixin) :
    Option Mixin :=
  ms.foldl (fun a m => if m.kind = k then some m else a) acc

theorem lastOfKind_cons (k : MixinKind) (m : Mixin) (rest : List Mixin)
    (acc : Option Mixin) :
    lastOfKind k (m :: rest) acc
      = lastOfKind k rest (if m.kind = k then some m else acc) := rfl

theorem lastOfKind_of_not_mem (k : MixinKind) (ms : List Mixin)
    (acc : Option Mixin) (h : ∀ m ∈ ms, m.kind ≠ k) :
    lastOfKind k ms acc = acc := by
  induction ms generalizing acc with
  | nil => rfl
  | cons m rest ih =>
    rw [lastOfKind_cons, if_neg (h m (List.mem_cons_self m rest))]
    exact ih _ (fun x hx => h x (List.mem_cons_of_mem m hx))

/-- The mixin loop's `resource_template` and `os_template` locals hold the
last mixin of the corresponding kind (assignments overwrite). -/
theorem scan_mixins_fields (attrs : List (String × String)) :
    ∀ (ms : List Mixin) (s s' : ScanState),
      scan_mixins attrs ms s = .ok s' →
      s'.resource_template
          = lastOfKind .resourceTemplate ms s.resource_template ∧
      s'.os_template = lastOfKind .osTemplate ms s.os_template := by
  intro ms
  induction ms with
  | nil =>
    intro s s' h
    simp only [scan_mixins, Except.ok.injEq] at h
    subst h
    exact ⟨rfl, rfl⟩
  | cons m rest ih =>
    intro s s' h
    simp only [scan_mixins] at h
    rw [lastOfKind_cons, lastOfKind_cons]
    cases hk : m.kind <;> simp only [hk] at h ⊢
    · cases hr : m.related_sec_group <;> simp only [hr, if_pos, if_neg,
        Bool.false_eq_true, if_true, if_false] at h <;>
        simpa using ih _ _ h
    · cases hr : m.related_sec_group <;> simp only [hr, Bool.false_eq_true,
        if_true, if_false] at h <;> simpa using ih _ _ h
    · cases hn : lookupAttr attrs "org.openstack.credentials.publickey.name" with
      | none => simp [hn] at h
      | some n =>
        cases hd : lookupAttr attrs "org.openstack.credentials.publickey.data" with
        | none => simp [hn, hd] at h
        | some d =>
          simp only [hn, hd] at h
          cases hr : m.related_sec_group <;> simp only [hr,
            Bool.false_eq_true, if_true, if_false] at h <;>
            simpa using ih _ _ h
    · cases hr : m.related_sec_group <;> simp only [hr, Bool.false_eq_true,
        if_true, if_false] at h <;> simpa using ih _ _ h

/-- C3: with no OsTemplate mixin anywhere in the Resource Description,
`create_vm` never issues a provider create call (the call list is empty);
when the mixin scan itself completes it fails with the "Please provide a
valid OS Template." validation error, and when the scan raises first
(e.g. a key-pair mixin with missing attributes) that earlier error is the
one propagated — the OS-template check runs only after the full scan. -/
theorem create_vm_requires_os_template (entity : Entity)
    (flavors : String → Option String) (dfl pw : String)
    (provider : CreateArgs → Except String (List String))
    (h : ∀ m ∈ entity.mixins, m.kind ≠ MixinKind.osTemplate) :
    (create_vm entity flavors dfl pw provider).2 = [] ∧
    (∀ s, scan_mixins entity.attributes entity.mixins {} = .ok s →
      (create_vm entity flavors dfl pw provider).1
        = .error (Err.validation "Please provide a valid OS Template.")) ∧
    (∀ e, scan_mixins entity.attributes entity.mixins {} = .error e →
      (create_vm entity flavors dfl pw provider).1 = .error e) := by
  cases hscan : scan_mixins entity.attributes entity.mixins {} with
  | error e =>
    refine ⟨?_, fun s hs => ?_, fun e' he => ?_⟩
    · simp [create_vm, create_vm_args, hscan]
    · simp at hs
    · injection he with h1
      subst h1
      simp [create_vm, create_vm_args, hscan]
  | ok s =>
    have hos : s.os_template = none := by
      have h2 := (scan_mixins_fields entity.attributes entity.mixins _ _ hscan).2
      rwa [lastOfKind_of_not_mem _ _ _ h] at h2
    refine ⟨?_, fun s' hs => ?_, fun e' he => ?_⟩
    · simp [create_vm, create_vm_args, hscan, hos]
    · simp [create_vm, create_vm_args, hscan, hos]
    · simp at he

/-- C3 witness: the theorem applied to a description holding only a
ResourceTemplate mixin — no provider call, validation error. -/
theorem create_vm_requires_os_template_witness :
    (create_vm ⟨[], [⟨MixinKind.resourceTemplate, "m1.small", "", false⟩]⟩
        (fun _ => none) "m1.default" "pw" (fun _ => .ok ["i1"])).2 = [] ∧
    (create_vm ⟨[], [⟨MixinKind.resourceTemplate, "m1.small", "", false⟩]⟩
        (fun _ => none) "m1.default" "pw" (fun _ => .ok ["i1"])).1
      = .error (Err.validation "Please provide a valid OS Template.") :=
  ⟨(create_vm_requires_os_template _ _ _ _ _ (by decide)).1,
   (create_vm_requires_os_template _ _ _ _ _ (by decide)).2.1 _ rfl⟩

/-- C4: creating from `[OsTemplate "image-1", ResourceTemplate "m1.small"]`
with hostname "web1" issues exactly one provider create call — flavor
"m1.small", image "image-1", name "web1" as both display name and
description, min = max = 1 — and returns exactly the first element of the
provider's returned instance list. -/
theorem create_vm_end_to_end (x : String) (rest : List String) :
    create_vm
      ⟨[("occi.compute.hostname", "web1")],
       [⟨MixinKind.osTemplate, "os_tpl", "image-1", false⟩,
        ⟨MixinKind.resourceTemplate, "m1.small", "", false⟩]⟩
      (fun n => if n = "m1.small" then some "m1.small" else none)
      "m1.default" "pw"
      (fun _ => .ok (x :: rest))
    = (.ok x,
       [⟨"m1.small", "image-1", 1, 1, some "web1", some "web1",
         none, none, [], "pw"⟩]) := rfl

/-- C4 witness: the end-to-end theorem at the provider answer
`["inst-1", "inst-2"]`: the first handle is returned. -/
theorem create_vm_end_to_end_witness :
    create_vm
      ⟨[("occi.compute.hostname", "web1")],
       [⟨MixinKind.osTemplate, "os_tpl", "image-1", false⟩,
        ⟨MixinKind.resourceTemplate, "m1.small", "", false⟩]⟩
      (fun n => if n = "m1.small" then some "m1.small" else none)
      "m1.default" "pw"
      (fun _ => .ok ["inst-1", "inst-2"])
    = (.ok "inst-1",
       [⟨"m1.small", "image-1", 1, 1, some "web1", some "web1",
         none, none, [], "pw"⟩]) :=
  create_vm_end_to_end "inst-1" ["inst-2"]

/-- C6: with an OsTemplate present, a description with no ResourceTemplate
mixin resolves successfully to a create call that uses the
provider-defined default flavor; when ResourceTemplate mixins are
present, the last one in mixin order selects the flavor by name; and a
resolved argument record is passed to the provider exactly once, with the
first returned handle given back. -/
theorem create_vm_flavor_selection (entity : Entity)
    (flavors : String → Option String) (dfl pw : String) (s : ScanState)
    (hscan : scan_mixins entity.attributes entity.mixins {} = .ok s)
    (ot : Mixin) (hos : s.os_template = some ot) :
    ((∀ m ∈ entity.mixins, m.kind ≠ MixinKind.resourceTemplate) →
      create_vm_args entity flavors dfl pw
        = .ok ⟨dfl, ot.os_id, 1, 1,
            lookupAttr entity.attributes "occi.compute.hostname",
            lookupAttr entity.attributes "occi.compute.hostname",
            s.key_name, s.key_data, s.sg_names, pw⟩) ∧
    (∀ rt, lastOfKind MixinKind.resourceTemplate entity.mixins none = some rt →
      ∀ ft, flavors rt.term = some ft →
        create_vm_args entity flavors dfl pw
          = .ok ⟨ft, ot.os_id, 1, 1,
              lookupAttr entity.attributes "occi.compute.hostname",
              lookupAttr entity.attributes "occi.compute.hostname",
              s.key_name, s.key_data, s.sg_names, pw⟩) ∧
    (∀ args, create_vm_args entity flavors dfl pw = .ok args →
      ∀ (provider : CreateArgs → Except String (List String)) x rest,
        provider args = .ok (x :: rest) →
        create_vm entity flavors dfl pw provider = (.ok x, [args])) := by
  have hrt := (scan_mixins_fields entity.attributes entity.mixins _ _ hscan).1
  refine ⟨fun h => ?_, fun rt hlast ft hft => ?_, fun args ha provider x rest hp => ?_⟩
  · have hnone : s.resource_template = none := by
      rwa [lastOfKind_of_not_mem _ _ _ h] at hrt
    simp [create_vm_args, hscan, hos, hnone]
  · have hsome : s.resource_template = some rt := by
      rw [hrt]; exact hlast
    simp [create_vm_args, hscan, hos, hsome, hft]
  · simp [create_vm, ha, hp]

/-- C6 witness: a description with only an OsTemplate mixin resolves to a
create call using the default flavor "m1.default". -/
theorem create_vm_flavor_selection_witness :
    create_vm_args ⟨[], [⟨MixinKind.osTemplate, "os_tpl", "image-1", false⟩]⟩
        (fun _ => none) "m1.default" "pw"
      = .ok ⟨"m1.default", "image-1", 1, 1, none, none, none, none, [], "pw"⟩ :=
  (create_vm_flavor_selection
      ⟨[], [⟨MixinKind.osTemplate, "os_tpl", "image-1", false⟩]⟩
      (fun _ => none) "m1.default" "pw"
      ⟨none, some ⟨MixinKind.osTemplate, "os_tpl", "image-1", false⟩,
        none, none, []⟩ rfl
      ⟨MixinKind.osTemplate, "os_tpl", "image-1", false⟩ rfl).1 (by decide)

/-- A Python string object: its value together with its object identity.
Python `is` compares object identity, `==`/`in` compare values; two
distinct objects (different `objId`) may hold equal values. -/
structure PyStr where
  val : String
  objId : Nat
deriving Repr, DecidableEq

/-- Python `a is b`: the two operands are the very same object. -/
def pyIs (a b : PyStr) : Bool := a == b

/-- The interned source literal `'cold'` of vm.py line 300. -/
def coldLiteral : PyStr := ⟨"cold", 0⟩

/-- Reboot kinds accepted by `COMPUTE_API.reboot`. -/
inductive RebootType where
  | SOFT
  | HARD
deriving Repr, DecidableEq

/-- Method dispatch of `restart_vm` (vm.py lines 298-303), after the
instance fetch: `method in ('graceful', 'warm')` compares values, but the
cold branch is `method is 'cold'` — object identity against the interned
source literal.  `.ok ty` means `COMPUTE_API.reboot` is then invoked
exactly once with `ty`; `.error` means no reboot call is made. -/
def restart_vm (method : PyStr) : Except Err RebootType :=
  if method.val = "graceful" ∨ method.val = "warm" then .ok .SOFT
  else if pyIs method coldLiteral then .ok .HARD
  else .error (.validation "Unknown method.")

/-- C5: "graceful" and "warm" issue a soft reboot and an unknown method
string raises before any reboot call, as claimed — but "cold" is compared
with `is`, so a runtime-constructed string whose value is "cold" (object
id 1 here, distinct from the source literal) falls through to the
"Unknown method." error instead of issuing the hard reboot the function's
own docstring mapping (`HARD -> cold`) promises. -/
theorem restart_vm_cold_identity_bug :
    restart_vm ⟨"graceful", 7⟩ = .ok RebootType.SOFT ∧
    restart_vm ⟨"warm", 8⟩ = .ok RebootType.SOFT ∧
    restart_vm coldLiteral = .ok RebootType.HARD ∧
    restart_vm ⟨"cold", 1⟩ = .error (Err.validation "Unknown method.") :=
  ⟨rfl, rfl, rfl, rfl⟩

/-- Loop condition `not ready or i < 15` of `resize_vm` (vm.py line 181):
Python operator precedence parses it as `(not ready) or (i < 15)`. -/
def resizeLoopCond (ready : Bool) (i : Nat) : Bool :=
  !ready || decide (i < 15)

/-- The polling loop of `resize_vm` (vm.py lines 179-187) run against a
trace of polled `vm_state` values (`trace k` is what the k-th poll of
`get_vm(uid)['vm_state']` returns), with explicit fuel.  `some i` is the
counter value at loop exit; `none` means the fuel ran out with the loop
still running. -/
def runResizeLoop (trace : Nat → String) : Nat → Bool → Nat → Option Nat
  | 0, _, _ => none
  | fuel + 1, ready, i =>
    if resizeLoopCond ready i then
      runResizeLoop trace fuel (ready || decide (trace i = "resized")) (i + 1)
    else some i

/-- In `resize_vm`, `COMPUTE_API.confirm_resize` is reached exactly when
the poll loop (started from `ready = False`, `i = 0`) exits. -/
def resize_confirm_called (trace : Nat → String) (fuel : Nat) : Bool :=
  (runResizeLoop trace fuel false 0).isSome

theorem runResizeLoop_le (trace : Nat → String) :
    ∀ fuel ready i n, runResizeLoop trace fuel ready i = some n → i ≤ n := by
  intro fuel
  induction fuel with
  | zero => intro ready i n h; cases h
  | succ fuel ih =>
    intro ready i n h
    simp only [runResizeLoop] at h
    split at h
    · exact Nat.le_of_succ_le (ih _ _ _ h)
    · cases h; exact Nat.le_refl _

theorem runResizeLoop_exit_requires_resized (trace : Nat → String) :
    ∀ fuel ready i n, runResizeLoop trace fuel ready i = some n →
      ready = true ∨ ∃ k, i ≤ k ∧ k < n ∧ trace k = "resized" := by
  intro fuel
  induction fuel with
  | zero => intro ready i n h; cases h
  | succ fuel ih =>
    intro ready i n h
    simp only [runResizeLoop] at h
    split at h
    · rcases ih _ _ _ h with hr | ⟨k, hk1, hk2, hk3⟩
      · rcases Bool.or_eq_true_iff.mp hr with hr' | hres
        · exact Or.inl hr'
        · refine Or.inr ⟨i, Nat.le_refl _, ?_, of_decide_eq_true hres⟩
          exact Nat.lt_of_succ_le (runResizeLoop_le trace fuel _ _ _ h)
      · exact Or.inr ⟨k, Nat.le_of_succ_le hk1, hk2, hk3⟩
    · cases h
      left
      cases ready
      · simp [resizeLoopCond] at *
      · rfl

theorem runResizeLoop_never_exits (trace : Nat → String)
    (h : ∀ k, trace k ≠ "resized") :
    ∀ fuel i, runResizeLoop trace fuel false i = none := by
  intro fuel
  induction fuel with
  | zero => intro i; rfl
  | succ fuel ih =>
    intro i
    simp only [runResizeLoop, resizeLoopCond, Bool.not_false, Bool.true_or,
      if_true, Bool.false_or]
    rw [decide_eq_false (h i)]
    exact ih (i + 1)

/-- C7: the `resize_vm` poll loop cannot exit through its iteration
counter alone: whenever it exits (at any fuel), some earlier poll
returned `vm_state = "resized"`; if no poll ever returns "resized" the
loop runs forever (returns `none` at every fuel); and `confirm_resize`
is invoked only after such an exit, hence only after "resized" was
observed. -/
theorem resize_vm_poll_unbounded :
    (∀ (trace : Nat → String) (fuel n : Nat),
      runResizeLoop trace fuel false 0 = some n →
      ∃ k, k < n ∧ trace k = "resized") ∧
    (∀ trace : Nat → String, (∀ k, trace k ≠ "resized") →
      ∀ fuel, runResizeLoop trace fuel false 0 = none) ∧
    (∀ (trace : Nat → String) (fuel : Nat),
      resize_confirm_called trace fuel = true →
      ∃ k, trace k = "resized") := by
  have main : ∀ (trace : Nat → String) (fuel n : Nat),
      runResizeLoop trace fuel false 0 = some n →
      ∃ k, k < n ∧ trace k = "resized" := by
    intro trace fuel n h
    rcases runResizeLoop_exit_requires_resized trace fuel false 0 n h with
      hr | ⟨k, _, hk2, hk3⟩
    · cases hr
    · exact ⟨k, hk2, hk3⟩
  refine ⟨main, fun trace h fuel => runResizeLoop_never_exits trace h fuel 0,
    fun trace fuel h => ?_⟩
  rcases Option.isSome_iff_exists.mp h with ⟨n, hn⟩
  rcases main trace fuel n hn with ⟨k, _, hk⟩
  exact ⟨k, hk⟩

/-- C7 witness: on the trace that always reports "resized" the loop exits
with counter 15 at fuel 20, so the theorem yields an observed "resized"
poll before exit. -/
theorem resize_vm_poll_unbounded_witness :
    ∃ k, k < 15 ∧ (fun _ : Nat => "resized") k = "resized" :=
  resize_vm_poll_unbounded.1 (fun _ => "resized") 20 15 (by decide)

/-- Body of `set_password_for_vm` (vm.py lines 357-362) after the
instance fetch succeeded: the outcome of the provider's
`set_admin_password` call is the parameter.  The source's single
`except InstancePasswordSetFailed` clause logs a warning and returns;
any other provider exception is not caught. -/
def set_password_for_vm (outcome : Except ProviderErr Unit) : Except Err Unit :=
  match outcome with
  | .ok _ => .ok ()
  | .error (.instancePasswordSetFailed _) => .ok ()
  | .error e => .error (.provider e)

/-- C8 counterexample: a provider failure of the set-admin-password call
of a kind other than `InstancePasswordSetFailed` (here an invalid-state
rejection) is propagated — the call does not return successfully, so the
claim that no provider failure from that call reaches the caller is
false. -/
theorem set_password_propagates_invalid_state :
    set_password_for_vm (.error (.instanceInvalidState "not active"))
      ≠ .ok () :=
  fun h => nomatch h

/-- C8 amended: `set_password_for_vm` returns successfully on provider
success and whenever the provider failure is the
`InstancePasswordSetFailed` kind (logged only); every other provider
failure kind from the set-admin-password call propagates uncaught. -/
theorem set_password_swallows_only_password_failures :
    set_password_for_vm (.ok ()) = .ok () ∧
    (∀ msg, set_password_for_vm (.error (.instancePasswordSetFailed msg))
        = .ok ()) ∧
    (∀ e : ProviderErr, (∀ msg, e ≠ .instancePasswordSetFailed msg) →
      set_password_for_vm (.error e) = .error (.provider e)) := by
  refine ⟨rfl, fun msg => rfl, fun e he => ?_⟩
  cases e with
  | instancePasswordSetFailed msg => exact absurd rfl (he msg)
  | instanceNotFound msg => rfl
  | otherNotFound msg => rfl
  | instanceInvalidState msg => rfl
  | other msg => rfl

/-- C8 witness: the amended theorem applied to the password-set-failed
outcome (swallowed) and to an invalid-state outcome (propagated). -/
theorem set_password_swallows_only_password_failures_witness :
    set_password_for_vm (.error (.instancePasswordSetFailed "driver"))
        = .ok () ∧
    set_password_for_vm (.error (.instanceInvalidState "building"))
        = .error (.provider (.instanceInvalidState "building")) :=
  ⟨set_password_swallows_only_password_failures.2.1 "driver",
   set_password_swallows_only_password_failures.2.2
     (.instanceInvalidState "building") (by intro msg h; cases h)⟩

/-- A console handle as returned by `COMPUTE_API.get_vnc_console`. -/
structure Console where
  url : String
deriving Repr, DecidableEq

/-- Function `get_vnc` (vm.py lines 365-379): `None` unless
`FLAGS.vnc_enabled`; otherwise `get_vm` runs first (its
`except exception.NotFound` remaps any provider not-found of the fetch —
`InstanceNotFound` is a `NotFound` subclass — to
`HTTPError(404, 'VM not found!')`), then `get_vnc_console` is requested
and only its `InstanceNotFound` is caught, leaving the console `None`. -/
def get_vnc (vnc_enabled : Bool) (fetch : Except ProviderErr Instance)
    (console : Except ProviderErr Console) : Except Err (Option Console) :=
  if vnc_enabled then
    match fetch with
    | .error (.instanceNotFound _) => .error (.httpError 404 "VM not found!")
    | .error (.otherNotFound _) => .error (.httpError 404 "VM not found!")
    | .error e => .error (.provider e)
    | .ok _ =>
      match console with
      | .ok c => .ok (some c)
      | .error (.instanceNotFound _) => .ok none
      | .error e => .error (.provider e)
  else .ok none

/-- C9 counterexample: with consoles enabled and a uid the provider's
instance fetch reports as not found, `get_vnc` does not return absent —
the instance fetch raises `HTTPError(404, 'VM not found!')` before the
console request is reached. -/
theorem get_vnc_not_found_propagates :
    get_vnc true (.error (.instanceNotFound "gone")) (.ok ⟨"vnc-url"⟩)
      ≠ .ok none :=
  fun h => nomatch h

/-- C9 amended: `get_vnc` returns absent when console support is disabled
by configuration, and, when enabled, returns absent (logging only) when
the instance fetch succeeds but the console request itself fails with
instance-not-found; an instance-fetch not-found instead propagates as
the NotFoundError `HTTPError(404, 'VM not found!')`. -/
theorem get_vnc_soft_fail :
    (∀ fetch console, get_vnc false fetch console = .ok none) ∧
    (∀ (inst : Instance) msg,
      get_vnc true (.ok inst) (.error (.instanceNotFound msg)) = .ok none) ∧
    (∀ msg (console : Except ProviderErr Console),
      get_vnc true (.error (.instanceNotFound msg)) console
        = .error (.httpError 404 "VM not found!")) :=
  ⟨fun _ _ => rfl, fun _ _ => rfl, fun _ _ => rfl⟩

/-- C9 witness: the amended console theorem applied concretely: disabled
configuration yields absent, and an enabled fetch-success with a
console-side instance-not-found also yields absent. -/
theorem get_vnc_soft_fail_witness :
    get_vnc false (.ok ⟨"active", none⟩) (.ok ⟨"vnc-url"⟩) = .ok none ∧
    get_vnc true (.ok ⟨"active", none⟩)
        (.error (.instanceNotFound "raced")) = .ok none :=
  ⟨get_vnc_soft_fail.1 (.ok ⟨"active", none⟩) (.ok ⟨"vnc-url"⟩),
   get_vnc_soft_fail.2.1 ⟨"active", none⟩ "raced"⟩
